import Mathlib

/-!
Verification of the catalog-query / order-fulfillment pipeline of the
Ecoomerce_apis repository, as a shallow embedding in Lean 4.

Conventions of the embedding:
* The document store is a pure list of records; `find(filter)` is
  `List.filter`, `countDocuments(filter)` is `(List.filter _).length`,
  `sort/skip/limit` are `sortBy/drop/take`.
* Client query-string parameters are `Option String` (absent = JS
  `undefined`); JS truthiness of a string is "present and non-empty".
* JS `parseFloat` is modelled by `parseFloatJS`, returning `JSNum.nan`
  when no leading numeral exists (exponent notation is not modelled; the
  inputs considered never use it).  Numbers are `ℚ` (prices in the store
  are finite decimals, never NaN).
* MongoDB comparison semantics place NaN below every number, so a
  `$gte: NaN` bound matches every numeric price and `$lte: NaN` none.
-/

namespace Ecom

/-- A product document as queried by the catalog routes.  The route
predicates touch `name`, `description`, `category`, `price`, `is_active`,
`featured`, `createdAt`, `images`.  (The mongoose schema in the model file
declares `categories : [String]` and no singular `category`; the routes
nevertheless query the `category` path, so the document is modelled with
the queried field.) -/
structure Product where
  name : String := ""
  description : String := ""
  category : String := ""
  price : ℚ := 0
  is_active : Bool := true
  featured : Bool := false
  createdAt : Nat := 0
  images : List String := []
  deriving Repr, DecidableEq

/-- A JS number that may be NaN (the result of `parseFloat` on a
non-numeric string). -/
inductive JSNum where
  | num (q : ℚ)
  | nan
  deriving Repr, DecidableEq

def digitVal (c : Char) : Nat := c.toNat - '0'.toNat

def digitsToNat (ds : List Char) : Nat :=
  ds.foldl (fun acc c => acc * 10 + digitVal c) 0

/-- JS `parseFloat`: skip leading whitespace, optional sign, digits,
optional fraction; trailing garbage is ignored; if no digit is found the
result is NaN.  The numeric value `±(i.f)` is the rational
`±(i·10^len(f) + f) / 10^len(f)`. -/
def parseFloatJS (s : String) : JSNum :=
  let cs := s.toList.dropWhile (fun c => c = ' ' || c = '\t' || c = '\n' || c = '\r')
  let (sign, cs) : Int × List Char :=
    match cs with
    | '-' :: rest => (-1, rest)
    | '+' :: rest => (1, rest)
    | _ => (1, cs)
  let intDigits := cs.takeWhile Char.isDigit
  let cs := cs.dropWhile Char.isDigit
  let fracDigits :=
    match cs with
    | '.' :: rest => rest.takeWhile Char.isDigit
    | _ => []
  if intDigits.isEmpty && fracDigits.isEmpty then JSNum.nan
  else
    JSNum.num (mkRat
      (sign * (digitsToNat intDigits * 10 ^ fracDigits.length
        + digitsToNat fracDigits : Nat))
      (10 ^ fracDigits.length))

/-- `price ≥ bound` under MongoDB ordering (NaN is below every number). -/
def jsGeMatches : JSNum → ℚ → Bool
  | .num q, p => decide (q ≤ p)
  | .nan, _ => true

/-- `price ≤ bound` under MongoDB ordering (NaN is below every number). -/
def jsLeMatches : JSNum → ℚ → Bool
  | .num q, p => decide (p ≤ q)
  | .nan, _ => false

/-- `listPrefixOf n h`: `n` is a prefix of `h`. -/
def listPrefixOf [BEq α] : List α → List α → Bool
  | [], _ => true
  | _ :: _, [] => false
  | a :: as, b :: bs => a == b && listPrefixOf as bs

/-- `listInfixOf n h`: `n` occurs contiguously inside `h`. -/
def listInfixOf [BEq α] (needle : List α) : List α → Bool
  | [] => listPrefixOf needle []
  | b :: bs => listPrefixOf needle (b :: bs) || listInfixOf needle bs

/-- Case-insensitive substring match, the effect of
`$regex: s, $options: i` for a pattern without metacharacters. -/
def containsCI (hay needle : String) : Bool :=
  listInfixOf needle.toLower.toList hay.toLower.toList

/-- JS truthiness of an optional string field. -/
def truthy : Option String → Bool
  | none => false
  | some s => !(s == "")

/-- The query parameters accepted by the catalog list route (all
optional query-string values; `page`/`limit` are kept as already-parsed
numerals, `minPrice`/`maxPrice` as the raw strings fed to `parseFloat`). -/
structure ListReq where
  category : Option String := none
  page : Option Nat := none
  limit : Option Nat := none
  sort : Option String := none
  minPrice : Option String := none
  maxPrice : Option String := none
  search : Option String := none
  deriving Repr, DecidableEq

/-- The compiled MongoDB filter document. -/
structure Filter where
  activeOnly : Bool
  category : Option String
  search : Option String
  priceGte : Option JSNum
  priceLte : Option JSNum
  deriving Repr, DecidableEq

/-- Filter compilation of the Cloudinary catalog route:
`filter = (is_active: true)`, then
`if (category && category !== 'all') filter.category = category`,
`if (search) filter.$or = [regex name, description, category]`,
`if (minPrice) filter.price.$gte = parseFloat(minPrice)`,
`if (maxPrice) filter.price.$lte = parseFloat(maxPrice)`. -/
def buildFilter (req : ListReq) : Filter where
  activeOnly := true
  category :=
    match req.category with
    | some c => if c ≠ "" && c ≠ "all" then some c else none
    | none => none
  search := if truthy req.search then req.search else none
  priceGte :=
    match req.minPrice with
    | some s => if s ≠ "" then some (parseFloatJS s) else none
    | none => none
  priceLte :=
    match req.maxPrice with
    | some s => if s ≠ "" then some (parseFloatJS s) else none
    | none => none

/-- Whether a stored document matches the compiled filter (conjunction of
the filter's clauses, as MongoDB evaluates a query document). -/
def matchesFilter (f : Filter) (p : Product) : Bool :=
  (!f.activeOnly || p.is_active)
    && (match f.category with
        | none => true
        | some c => p.category == c)
    && (match f.search with
        | none => true
        | some s => containsCI p.name s || containsCI p.description s
            || containsCI p.category s)
    && (match f.priceGte with
        | none => true
        | some b => jsGeMatches b p.price)
    && (match f.priceLte with
        | none => true
        | some b => jsLeMatches b p.price)

/-- Stable insertion used by `sortBy`. -/
def insertBy (le : α → α → Bool) (x : α) : List α → List α
  | [] => [x]
  | y :: ys => if le x y then x :: y :: ys else y :: insertBy le x ys

/-- Deterministic sort standing in for the store's `.sort(sortObj)`. -/
def sortBy (le : α → α → Bool) : List α → List α
  | [] => []
  | x :: xs => insertBy le x (sortBy le xs)

/-- The comparator selected by the route's `switch (sort)` (the
destructuring default and the switch default are both `newest`). -/
def sortComparator (sort : Option String) : Product → Product → Bool :=
  match sort.getD "newest" with
  | "price-low" => fun a b => decide (a.price ≤ b.price)
  | "price-high" => fun a b => decide (b.price ≤ a.price)
  | "name" => fun a b => decide (a.name ≤ b.name)
  | _ => fun a b => decide (b.createdAt ≤ a.createdAt)

structure Pagination where
  currentPage : Nat
  totalPages : Nat
  total : Nat
  hasNext : Bool
  hasPrev : Bool
  deriving Repr, DecidableEq

/-- The `(success, data.products, data.pagination)` envelope of the list
route; the only non-exceptional reply the handler produces has
`success = true`. -/
structure ListResp where
  success : Bool
  products : List Product
  pagination : Pagination
  deriving Repr, DecidableEq

/-- The Cloudinary catalog list handler (`router.get('/')`): destructure
with defaults `page = 1`, `limit = 12`, `sort = 'newest'`; build the
filter; `skip = (page-1)*limit`; run
`find(filter).sort(sortObj).skip(skip).limit(limit)`; then
`total = countDocuments(filter)` and
`totalPages = Math.ceil(total/limit)` (for naturals with `limit ≥ 1`,
`(total + limit - 1) / limit`). -/
def listProducts (store : List Product) (req : ListReq) : ListResp :=
  let page := req.page.getD 1
  let limit := req.limit.getD 12
  let filter := buildFilter req
  let matching := store.filter (fun p => matchesFilter filter p)
  let skip := (page - 1) * limit
  let products := ((sortBy (sortComparator req.sort) matching).drop skip).take limit
  let total := matching.length
  let totalPages := (total + limit - 1) / limit
  { success := true
    products := products
    pagination :=
      { currentPage := page
        totalPages := totalPages
        total := total
        hasNext := decide (page < totalPages)
        hasPrev := decide (1 < page) } }

/-- Filter compilation of the plain `routes/products.js` list handler:
`filter = ()` — no `is_active` clause — then
`if (category) filter.category = category` (no special-casing of
`'all'`), and the same optional `price` bounds; it has no `search`
parameter. -/
def buildFilterPlain (req : ListReq) : Filter where
  activeOnly := false
  category :=
    match req.category with
    | some c => if c ≠ "" then some c else none
    | none => none
  search := none
  priceGte :=
    match req.minPrice with
    | some s => if s ≠ "" then some (parseFloatJS s) else none
    | none => none
  priceLte :=
    match req.maxPrice with
    | some s => if s ≠ "" then some (parseFloatJS s) else none
    | none => none

/-- Comparator of the plain `routes/products.js` handler (its `switch`
has no `name` case). -/
def sortComparatorPlain (sort : Option String) : Product → Product → Bool :=
  match sort.getD "newest" with
  | "price-low" => fun a b => decide (a.price ≤ b.price)
  | "price-high" => fun a b => decide (b.price ≤ a.price)
  | _ => fun a b => decide (b.createdAt ≤ a.createdAt)

/-- The plain `routes/products.js` list handler (same pagination shape,
but the filter never restricts on `is_active`). -/
def listProductsPlain (store : List Product) (req : ListReq) : ListResp :=
  let page := req.page.getD 1
  let limit := req.limit.getD 12
  let filter := buildFilterPlain req
  let matching := store.filter (fun p => matchesFilter filter p)
  let skip := (page - 1) * limit
  let products := ((sortBy (sortComparatorPlain req.sort) matching).drop skip).take limit
  let total := matching.length
  let totalPages := (total + limit - 1) / limit
  { success := true
    products := products
    pagination :=
      { currentPage := page
        totalPages := totalPages
        total := total
        hasNext := decide (page < totalPages)
        hasPrev := decide (1 < page) } }

/-! ## Order model (`models/Order`, `routes/orders`) -/

structure Customer where
  name : String := ""
  email : String := ""
  phone : String := ""
  deriving Repr, DecidableEq

structure Address where
  street : String := ""
  city : String := ""
  state : String := ""
  zipCode : String := ""
  deriving Repr, DecidableEq

structure OrderItem where
  product : Nat := 0
  productName : String := ""
  price : ℚ := 0
  quantity : Nat := 1
  deriving Repr, DecidableEq

/-- The JSON body of `POST /` on the orders route; every field the route
destructures may be absent. -/
structure OrderReq where
  customer : Option Customer := none
  shippingAddress : Option Address := none
  items : Option (List OrderItem) := none
  totalAmount : Option ℚ := none
  deriving Repr, DecidableEq

/-- A persisted order document (`id` is the store-assigned identifier). -/
structure Order where
  id : Nat := 0
  customer : Customer := {}
  shippingAddress : Address := {}
  items : List OrderItem := []
  totalAmount : ℚ := 0
  status : String := "Pending"
  orderNumber : String := ""
  deriving Repr, DecidableEq

/-- JS `(count + 1).toString().padStart(4, '0')`. -/
def padStart4 (s : String) : String :=
  if s.length < 4 then String.mk (List.replicate (4 - s.length) '0') ++ s else s

/-- The `orderSchema.pre('save')` hook: when the document has no
`orderNumber` yet, read `count = countDocuments()` and assign
`ORD-<Date.now()>-<(count+1).padStart(4,'0')>`. -/
def genOrderNumber (now count : Nat) : String :=
  "ORD-" ++ toString now ++ "-" ++ padStart4 (toString (count + 1))

/-- `!customer || !customer.name || !customer.email || !customer.phone`
negated: the customer object is present with truthy name/email/phone. -/
def customerOk : Option Customer → Bool
  | none => false
  | some c => !(c.name == "") && !(c.email == "") && !(c.phone == "")

/-- `!shippingAddress || !street || !city || !state || !zipCode`
negated. -/
def addressOk : Option Address → Bool
  | none => false
  | some a => !(a.street == "") && !(a.city == "") && !(a.state == "")
      && !(a.zipCode == "")

/-- `!items || !Array.isArray(items) || items.length === 0` negated. -/
def itemsOk : Option (List OrderItem) → Bool
  | none => false
  | some l => !l.isEmpty

/-- `!totalAmount || totalAmount <= 0` negated (JS: `0` and `undefined`
are falsy, so the check passes exactly for a present positive amount). -/
def amountOk : Option ℚ → Bool
  | none => false
  | some a => decide (0 < a)

/-- The order document built by `new Order(req.body)` followed by the
pre-save hook assigning `orderNumber`; `status` takes the schema default
`Pending`, `id` is assigned by the store. -/
def mkOrder (req : OrderReq) (id : Nat) (orderNumber : String) : Order where
  id := id
  customer := req.customer.getD {}
  shippingAddress := req.shippingAddress.getD {}
  items := (req.items.getD [])
  totalAmount := req.totalAmount.getD 0
  status := "Pending"
  orderNumber := orderNumber

inductive OrderResp where
  | badRequest (msg : String)
  | created (o : Order)
  deriving Repr, DecidableEq

/-- The order-creation handler (`router.post('/')`): four guard clauses,
each returning 400 with its message, then `new Order(req.body)` and
`save()` (whose pre-save hook numbers the order from the current
document count); returns the updated store and the response. -/
def createOrder (db : List Order) (req : OrderReq) (now : Nat) :
    List Order × OrderResp :=
  if !customerOk req.customer then
    (db, .badRequest "Customer information is required (name, email, phone)")
  else if !addressOk req.shippingAddress then
    (db, .badRequest "Complete shipping address is required")
  else if !itemsOk req.items then
    (db, .badRequest "Order items are required")
  else if !amountOk req.totalAmount then
    (db, .badRequest "Total amount must be greater than 0")
  else
    let o := mkOrder req db.length (genOrderNumber now db.length)
    (db ++ [o], .created o)

/-- The validation checks in the order the handler performs them, each
with the message its failure returns. -/
def orderValidationChecks (req : OrderReq) : List (Bool × String) :=
  [(customerOk req.customer,
      "Customer information is required (name, email, phone)"),
   (addressOk req.shippingAddress,
      "Complete shipping address is required"),
   (itemsOk req.items,
      "Order items are required"),
   (amountOk req.totalAmount,
      "Total amount must be greater than 0")]

/-- The message of the first failing check, if any (the specification's
fail-fast, first-failure-wins validation order). -/
def firstValidationFailure (req : OrderReq) : Option String :=
  ((orderValidationChecks req).find? (fun c => !c.1)).map Prod.snd

/-! ## Order status updates (`router.patch('/:id/status')`) -/

def validStatuses : List String :=
  ["Pending", "Dispatched", "Delivered", "Cancelled"]

inductive StatusResp where
  | badRequest
  | notFound
  | ok (o : Order)
  deriving Repr, DecidableEq

/-- The status-update handler of the orders route: reject a target that
is not one of the four schema statuses, otherwise
`findByIdAndUpdate(id, (status), (new: true, runValidators: true))` —
the target is checked for enum membership only, never against the
current status of the order. -/
def updateOrderStatus (db : List Order) (id : Nat) (status : String) :
    List Order × StatusResp :=
  if !(validStatuses.contains status) then
    (db, .badRequest)
  else
    match db.find? (fun o => o.id == id) with
    | none => (db, .notFound)
    | some o =>
        let o' := { o with status := status }
        (db.map (fun x => if x.id == id then o' else x), .ok o')

/-! ## Concurrent order creation

The pre-save hook is a read (`countDocuments`) followed, after the
number is computed, by the insert.  Two in-flight saves interleave at
that granularity; `RaceStep` schedules drive two requests `A` and `B`
over a shared store, each holding the count it read until it writes. -/

structure RaceState where
  db : List Order
  readA : Option Nat := none
  readB : Option Nat := none
  deriving Repr, DecidableEq

inductive RaceStep where
  | readA
  | readB
  | writeA
  | writeB
  deriving Repr, DecidableEq

/-- One scheduler step: a `read` records the current document count in
the request's hook; a `write` inserts the order numbered from the count
that request read (a write before its read does nothing). -/
def raceStep (reqA reqB : OrderReq) (now : Nat) (s : RaceState) :
    RaceStep → RaceState
  | .readA => { s with readA := some s.db.length }
  | .readB => { s with readB := some s.db.length }
  | .writeA =>
      match s.readA with
      | some c =>
          { s with db := s.db ++ [mkOrder reqA s.db.length (genOrderNumber now c)] }
      | none => s
  | .writeB =>
      match s.readB with
      | some c =>
          { s with db := s.db ++ [mkOrder reqB s.db.length (genOrderNumber now c)] }
      | none => s

def runRace (reqA reqB : OrderReq) (now : Nat) (sched : List RaceStep)
    (s : RaceState) : RaceState :=
  sched.foldl (raceStep reqA reqB now) s

/-! ## Product creation: image upload handling

An attached file's upload outcome is `some url` (the resolved URL) or
`none` (the upload rejected).  The Cloudinary route loops file-by-file
with a per-file `try/catch`; the hosted-mode `routes/products.js`
handler instead runs `Promise.all` over all files. -/

inductive ProdResp where
  | created (p : Product)
  | serverError
  deriving Repr, DecidableEq

/-- The per-file loop of the Cloudinary create handler:
`for (file of files) try (push(result.url)) catch (continue)` — a
successful URL is pushed in input order, a failed upload is skipped. -/
def uploadLoop : List (Option String) → List String
  | [] => []
  | some url :: rest => url :: uploadLoop rest
  | none :: rest => uploadLoop rest

/-- `Promise.all` over the per-file upload promises: all URLs in order,
or a rejection as soon as any upload fails. -/
def promiseAll : List (Option String) → Option (List String)
  | [] => some []
  | some url :: rest => (promiseAll rest).map (url :: ·)
  | none :: _ => none

/-- The Cloudinary route's create handler, image phase onward:
`images = imageUrls` collected by the skip-on-failure loop, then
`new Product(...productData, images, is_active: true)`, `save()`, 201. -/
def createProductCloud (db : List Product) (base : Product)
    (uploads : List (Option String)) : List Product × ProdResp :=
  let p := { base with images := uploadLoop uploads, is_active := true }
  (db ++ [p], .created p)

/-- The hosted-mode `routes/products.js` create handler, image phase
onward: `images = await Promise.all(files.map(uploadToCloudStorage))` —
a single rejected upload rejects the whole `Promise.all`, the `catch`
answers 500 and nothing is persisted. -/
def createProductHosted (db : List Product) (base : Product)
    (uploads : List (Option String)) : List Product × ProdResp :=
  match promiseAll uploads with
  | some urls =>
      let p := { base with images := urls }
      (db ++ [p], .created p)
  | none => (db, .serverError)

/-! ## Multipart JSON-string subfields (`fieldsToParseJSON.forEach`)

`JSON.parse` succeeds exactly on well-formed JSON text; the embedding
tracks a parsed value by its originating string and decides
well-formedness with an executable validator (string escapes are
consumed pairwise; the exponent form of numbers is not modelled — no
input considered here uses it). -/

def jsonWs (c : Char) : Bool :=
  c = ' ' || c = '\t' || c = '\n' || c = '\r'

def skipWs : List Char → List Char
  | [] => []
  | c :: cs => if jsonWs c then skipWs cs else c :: cs

/-- Consume a JSON string body after its opening quote. -/
def jsonStringRest : List Char → Option (List Char)
  | [] => none
  | '"' :: cs => some cs
  | '\\' :: _ :: cs => jsonStringRest cs
  | _ :: cs => jsonStringRest cs

/-- Consume `-? digits (. digits)?`. -/
def jsonNumberRest (cs : List Char) : Option (List Char) :=
  let cs := match cs with
    | '-' :: rest => rest
    | _ => cs
  let ds := cs.takeWhile Char.isDigit
  let cs := cs.dropWhile Char.isDigit
  if ds.isEmpty then none
  else
    match cs with
    | '.' :: rest =>
        let fs := rest.takeWhile Char.isDigit
        if fs.isEmpty then none else some (rest.dropWhile Char.isDigit)
    | _ => some cs

mutual

/-- Consume one JSON value; `fuel` bounds the nesting depth. -/
def jsonValRest : Nat → List Char → Option (List Char)
  | 0, _ => none
  | fuel + 1, cs =>
    match skipWs cs with
    | 'n' :: 'u' :: 'l' :: 'l' :: rest => some rest
    | 't' :: 'r' :: 'u' :: 'e' :: rest => some rest
    | 'f' :: 'a' :: 'l' :: 's' :: 'e' :: rest => some rest
    | '"' :: rest => jsonStringRest rest
    | '[' :: rest => jsonArrayRest fuel rest
    | '\x7b' :: rest => jsonObjectRest fuel rest
    | cs' => jsonNumberRest cs'

/-- Consume the elements of an array after `[`. -/
def jsonArrayRest : Nat → List Char → Option (List Char)
  | 0, _ => none
  | fuel + 1, cs =>
    match skipWs cs with
    | ']' :: rest => some rest
    | cs' =>
        match jsonValRest fuel cs' with
        | some rest => jsonArrayTail fuel rest
        | none => none

/-- Consume `,`-separated further elements up to `]`. -/
def jsonArrayTail : Nat → List Char → Option (List Char)
  | 0, _ => none
  | fuel + 1, cs =>
    match skipWs cs with
    | ']' :: rest => some rest
    | ',' :: rest =>
        match jsonValRest fuel rest with
        | some r => jsonArrayTail fuel r
        | none => none
    | _ => none

/-- Consume the members of an object after the opening brace. -/
def jsonObjectRest : Nat → List Char → Option (List Char)
  | 0, _ => none
  | fuel + 1, cs =>
    match skipWs cs with
    | '\x7d' :: rest => some rest
    | '"' :: rest =>
        match jsonStringRest rest with
        | some afterKey => jsonMemberVal fuel afterKey
        | none => none
    | _ => none

/-- Consume `: value` then further members. -/
def jsonMemberVal : Nat → List Char → Option (List Char)
  | 0, _ => none
  | fuel + 1, cs =>
    match skipWs cs with
    | ':' :: rest =>
        match jsonValRest fuel rest with
        | some r => jsonObjectTail fuel r
        | none => none
    | _ => none

/-- Consume `,`-separated further members up to the closing brace. -/
def jsonObjectTail : Nat → List Char → Option (List Char)
  | 0, _ => none
  | fuel + 1, cs =>
    match skipWs cs with
    | '\x7d' :: rest => some rest
    | ',' :: rest =>
        (match skipWs rest with
         | '"' :: r2 =>
             match jsonStringRest r2 with
             | some afterKey => jsonMemberVal fuel afterKey
             | none => none
         | _ => none)
    | _ => none

end

/-- `JSON.parse(s)` succeeds: one value, then only whitespace. -/
def jsonWf (s : String) : Bool :=
  match jsonValRest (s.length + 2) s.toList with
  | some rest => (skipWs rest).isEmpty
  | none => false

/-- The state of one of the six JSON-string form fields after the
`forEach` pass: still absent, the raw (unparsed) string, or the value
`JSON.parse` produced from the given string. -/
inductive FieldState where
  | absent
  | raw (s : String)
  | parsedJson (s : String)
  deriving Repr, DecidableEq

/-- One iteration of `fieldsToParseJSON.forEach`:
`if (productData[field]) try (productData[field] = JSON.parse(...))
catch (console.warn(...))` — an absent (or empty, hence falsy) field is
untouched, a well-formed field is replaced by its parse, and a parse
failure is logged while the field KEEPS its raw string value. -/
def processField : Option String → FieldState
  | none => .absent
  | some s =>
      if s = "" then .raw s
      else if jsonWf s then .parsedJson s
      else .raw s

/-- The six pre-serialized subfields of the multipart body. -/
structure MultipartData where
  categories : Option String := none
  tags : Option String := none
  dimensions : Option String := none
  attributes : Option String := none
  meta_keywords : Option String := none
  videos : Option String := none
  deriving Repr, DecidableEq

structure ParsedData where
  categories : FieldState
  tags : FieldState
  dimensions : FieldState
  attributes : FieldState
  meta_keywords : FieldState
  videos : FieldState
  deriving Repr, DecidableEq

/-- The whole `fieldsToParseJSON.forEach` pass over the six fields. -/
def parseJsonFields (pd : MultipartData) : ParsedData where
  categories := processField pd.categories
  tags := processField pd.tags
  dimensions := processField pd.dimensions
  attributes := processField pd.attributes
  meta_keywords := processField pd.meta_keywords
  videos := processField pd.videos

/-! ## Concrete sample data used by witnesses and counterexamples -/

def prodA : Product :=
  { name := "alpha", description := "first", category := "shoes",
    price := 5, createdAt := 10 }

def prodB : Product :=
  { name := "beta", description := "second", category := "hats",
    price := 7, createdAt := 20 }

def prodInactive : Product :=
  { name := "ghost", description := "hidden", category := "shoes",
    price := 3, createdAt := 5, is_active := false }

def prodBase : Product := { name := "base" }

def store101 : List Product := List.replicate 101 prodA

def orderDelivered : Order :=
  { id := 0, status := "Delivered", orderNumber := "ORD-1-0001" }

def validOrderReq : OrderReq :=
  { customer := some { name := "Ada", email := "ada@example.com", phone := "1" }
    shippingAddress := some { street := "1 Way", city := "Springfield",
                              state := "IL", zipCode := "62704" }
    items := some [{ product := 3, productName := "alpha", price := 5, quantity := 4 }]
    totalAmount := some 20 }

def zeroAmountReq : OrderReq := { validOrderReq with totalAmount := some 0 }

/-! ## Helper lemmas -/

theorem mem_insertBy {le : α → α → Bool} {x a : α} {l : List α} :
    a ∈ insertBy le x l ↔ a = x ∨ a ∈ l := by
  induction l with
  | nil => simp [insertBy]
  | cons y ys ih =>
      simp only [insertBy]
      split
      · simp
      · simp [ih]
        tauto

theorem mem_sortBy {le : α → α → Bool} {a : α} {l : List α} :
    a ∈ sortBy le l ↔ a ∈ l := by
  induction l with
  | nil => simp [sortBy]
  | cons y ys ih => simp [sortBy, mem_insertBy, ih]

/-- Every product the list handler returns comes from the filtered set,
i.e. the page query runs under exactly the compiled filter. -/
theorem mem_listProducts_matches {store : List Product} {req : ListReq}
    {p : Product} (hp : p ∈ (listProducts store req).products) :
    p ∈ store ∧ matchesFilter (buildFilter req) p = true := by
  have h1 : p ∈ sortBy (sortComparator req.sort)
      (store.filter (fun q => matchesFilter (buildFilter req) q)) :=
    List.drop_subset _ _ (List.take_subset _ _ hp)
  have h2 := mem_sortBy.1 h1
  exact ⟨(List.mem_filter.1 h2).1, (List.mem_filter.1 h2).2⟩

/-- Ceiling-division characterization of `(t + l - 1) / l` for `l ≥ 1`:
it is the least `n` with `t ≤ l * n`. -/
theorem ceil_formula_spec (t l : ℕ) (hl : 1 ≤ l) :
    t ≤ l * ((t + l - 1) / l) ∧ ∀ n, t ≤ l * n → (t + l - 1) / l ≤ n := by
  constructor
  · have h := le_smul_ceilDiv (α := ℕ) (β := ℕ) (b := t) (show 0 < l from hl)
    simpa [Nat.ceilDiv_eq_add_pred_div, smul_eq_mul] using h
  · intro n hn
    have h := (ceilDiv_le_iff_le_mul (show 0 < l from hl) (b := t) (c := n)).2 hn
    simpa [Nat.ceilDiv_eq_add_pred_div] using h

/-! ## C1 -/

/-- C1 (confirmed): for every catalog list request with valid `page` and
`limit`, `pagination.total` is the count of all documents matching the
same compiled predicate that produced the returned page (every returned
product satisfies it), `total` is independent of `page` and `limit`, and
`totalPages` is the ceiling of `total / limit` (the least `n` with
`total ≤ limit * n`). -/
theorem c1_pagination_total_correct (store : List Product) (req : ListReq)
    (hpage : 1 ≤ req.page.getD 1) (hlimit : 1 ≤ req.limit.getD 12) :
    (listProducts store req).pagination.total
        = (store.filter (fun p => matchesFilter (buildFilter req) p)).length
      ∧ (∀ p ∈ (listProducts store req).products,
          matchesFilter (buildFilter req) p = true)
      ∧ (∀ page' limit' : Option Nat,
          (listProducts store { req with page := page', limit := limit' }).pagination.total
            = (listProducts store req).pagination.total)
      ∧ (listProducts store req).pagination.total
          ≤ req.limit.getD 12 * (listProducts store req).pagination.totalPages
      ∧ (∀ n, (listProducts store req).pagination.total ≤ req.limit.getD 12 * n →
          (listProducts store req).pagination.totalPages ≤ n) := by
  refine ⟨rfl, fun p hp => (mem_listProducts_matches hp).2,
    fun page' limit' => rfl, ?_, ?_⟩
  · exact (ceil_formula_spec
      ((store.filter (fun p => matchesFilter (buildFilter req) p)).length)
      (req.limit.getD 12) hlimit).1
  · exact fun n hn => (ceil_formula_spec
      ((store.filter (fun p => matchesFilter (buildFilter req) p)).length)
      (req.limit.getD 12) hlimit).2 n hn

/-- Witness for C1 at a concrete store and request. -/
theorem c1_pagination_total_correct_witness :
    (listProducts [prodA, prodB, prodInactive] {}).pagination.total
      = ([prodA, prodB, prodInactive].filter
          (fun p => matchesFilter (buildFilter {}) p)).length :=
  (c1_pagination_total_correct [prodA, prodB, prodInactive] {}
    (by decide) (by decide)).1

/-! ## C10 -/

/-- C10 (confirmed): a catalog list request whose `category` parameter is
the literal string `all` compiles to the same filter as the request with
`category` omitted, and the whole response is identical. -/
theorem c10_category_all_no_restriction (store : List Product) (req : ListReq) :
    listProducts store { req with category := some "all" }
      = listProducts store { req with category := none } := by
  have hf : buildFilter { req with category := some "all" }
      = buildFilter { req with category := none } := by
    simp [buildFilter]
  unfold listProducts
  rw [hf]

/-! ## C4 -/

/-- C4 counterexample: the plain `routes/products.js` list handler builds
its filter without any `is_active` clause, so an inactive product appears
in a public catalog reply, contradicting the claim that every catalog
list request restricts to `is_active = true`. -/
theorem c4_plain_route_returns_inactive :
    prodInactive ∈ (listProductsPlain [prodInactive] {}).products
      ∧ prodInactive.is_active = false := by
  decide

/-- C4 as amended: the Cloudinary catalog handler always conjoins
`is_active = true`, so that route never returns an inactive product (the
plain `routes/products.js` handler applies no such restriction). -/
theorem c4_cloud_route_active_only (store : List Product) (req : ListReq)
    (p : Product) (hp : p ∈ (listProducts store req).products) :
    p.is_active = true := by
  have hm := (mem_listProducts_matches hp).2
  simp only [matchesFilter, buildFilter, Bool.not_true, Bool.false_or,
    Bool.and_eq_true] at hm
  exact hm.1.1.1.1

/-- Witness for the amended C4. -/
theorem c4_cloud_route_active_only_witness :
    prodA ∈ (listProducts [prodA] {}).products ∧ prodA.is_active = true :=
  ⟨by decide, c4_cloud_route_active_only [prodA] {} prodA (by decide)⟩

/-! ## C7 -/

/-- C7 counterexample: a malformed `minPrice` (`abc`) is not rejected —
the handler answers success, and the reply is identical to the reply for
the same request without the bound (the `parseFloat` NaN is passed into
the query, where a `$gte: NaN` bound excludes no numeric price). -/
theorem c7_malformed_minPrice_not_rejected :
    (listProducts [prodA, prodB] { minPrice := some "abc" }).success = true
      ∧ listProducts [prodA, prodB] { minPrice := some "abc" }
          = listProducts [prodA, prodB] {} := by
  decide

/-- C7 as amended: the list handler never returns a validation error
(every reply has `success = true`, malformed bounds included, the bound
being silently passed through `parseFloat`); well-formed bounds are
inclusive, and equal well-formed bounds `minPrice = maxPrice = v` make
the compiled predicate select exactly the products priced at `v` among
those matching the remaining clauses. -/
theorem c7_price_bounds_inclusive (store : List Product) (req : ListReq)
    (s : String) (v : ℚ) :
    (listProducts store req).success = true
      ∧ (req.minPrice = some s → req.maxPrice = some s → s ≠ "" →
          parseFloatJS s = .num v →
          ∀ p, matchesFilter (buildFilter req) p
            = (matchesFilter
                { buildFilter req with priceGte := none, priceLte := none } p
                && decide (p.price = v))) := by
  refine ⟨rfl, fun hmin hmax hs hv p => ?_⟩
  rcases le_or_lt v p.price with h1 | h1
  · rcases le_or_lt p.price v with h2 | h2
    · have he : p.price = v := le_antisymm h2 h1
      simp [matchesFilter, buildFilter, hmin, hmax, hs, hv,
        jsGeMatches, jsLeMatches, h1, h2, he]
    · have hne : p.price ≠ v := ne_of_gt h2
      simp [matchesFilter, buildFilter, hmin, hmax, hs, hv,
        jsGeMatches, jsLeMatches, h1, not_le.2 h2, hne]
  · have hne : p.price ≠ v := ne_of_lt h1
    simp [matchesFilter, buildFilter, hmin, hmax, hs, hv,
      jsGeMatches, jsLeMatches, not_le.2 h1, le_of_lt h1, hne]

/-- Witness for the amended C7 with bounds `7`/`7` on a price-7 product. -/
theorem c7_price_bounds_inclusive_witness :
    matchesFilter (buildFilter { minPrice := some "7", maxPrice := some "7" }) prodB
      = (matchesFilter
          { buildFilter { minPrice := some "7", maxPrice := some "7" } with
              priceGte := none, priceLte := none } prodB
          && decide (prodB.price = 7)) :=
  (c7_price_bounds_inclusive [] { minPrice := some "7", maxPrice := some "7" }
    "7" 7).2 rfl rfl (by decide) (by decide) prodB

/-! ## C8 -/

/-- C8 counterexample: `limit` is not clamped to 100 (or to anything):
with 101 matching products and `limit = 101` the handler returns 101
items, more than the claimed maximum. -/
theorem c8_limit_not_clamped :
    (listProducts store101 { limit := some 101 }).products.length = 101
      ∧ ¬ (listProducts store101 { limit := some 101 }).products.length ≤ 100 := by
  constructor
  · rfl
  · decide

/-- C8 as amended: `limit` defaults to 12 when absent; a large `limit` is
not rejected — the reply is a success — but it is not clamped either:
the handler returns up to the full requested `limit`. -/
theorem c8_limit_default_no_clamp (store : List Product) (req : ListReq) :
    (listProducts store req).success = true
      ∧ (req.limit = none → (listProducts store req).products.length ≤ 12)
      ∧ (∀ n, req.limit = some n →
          (listProducts store req).products.length ≤ n) := by
  refine ⟨rfl, fun h => ?_, fun n h => ?_⟩
  · simp only [listProducts, h, Option.getD]
    exact List.length_take_le _ _
  · simp only [listProducts, h, Option.getD]
    exact List.length_take_le _ _

/-- Witness for the amended C8 at `limit = 101`. -/
theorem c8_limit_default_no_clamp_witness :
    (listProducts store101 { limit := some 101 }).products.length ≤ 101 :=
  (c8_limit_default_no_clamp store101 { limit := some 101 }).2.2 101 rfl

/-! ## C5 -/

/-- C5 (confirmed): an order request whose `totalAmount` is 0 — or any
non-positive or absent amount — is rejected with a validation error and
nothing is persisted; and the whole validation is exactly fail-fast over
the checks customer, shipping address, non-empty items, positive total,
in that order, the first failing check's message winning. -/
theorem c5_zero_total_rejected_failfast (db : List Order) (req : OrderReq)
    (now : Nat) :
    (req.totalAmount.getD 0 ≤ 0 →
        (createOrder db req now).1 = db
          ∧ ∃ m, (createOrder db req now).2 = .badRequest m)
      ∧ createOrder db req now
          = (match firstValidationFailure req with
             | some m => (db, .badRequest m)
             | none =>
                 (db ++ [mkOrder req db.length (genOrderNumber now db.length)],
                  .created (mkOrder req db.length (genOrderNumber now db.length)))) := by
  have hmain : createOrder db req now
      = (match firstValidationFailure req with
         | some m => (db, .badRequest m)
         | none =>
             (db ++ [mkOrder req db.length (genOrderNumber now db.length)],
              .created (mkOrder req db.length (genOrderNumber now db.length)))) := by
    unfold createOrder firstValidationFailure orderValidationChecks
    cases hc : customerOk req.customer <;>
      cases ha : addressOk req.shippingAddress <;>
        cases hi : itemsOk req.items <;>
          cases hm : amountOk req.totalAmount <;>
            simp [List.find?]
  refine ⟨?_, hmain⟩
  intro hle
  have hA : amountOk req.totalAmount = false := by
    cases hta : req.totalAmount with
    | none => rfl
    | some a =>
        rw [hta] at hle
        simp only [Option.getD_some] at hle
        simp only [amountOk, decide_eq_false_iff_not]
        exact not_lt.2 hle
  have hsome : ∃ m, firstValidationFailure req = some m := by
    unfold firstValidationFailure orderValidationChecks
    rw [hA]
    cases hc : customerOk req.customer <;>
      cases ha : addressOk req.shippingAddress <;>
        cases hi : itemsOk req.items <;>
          simp [List.find?]
  obtain ⟨m, hm⟩ := hsome
  rw [hmain, hm]
  exact ⟨rfl, m, rfl⟩

/-- Witness for C5: the sample order request with `totalAmount = 0` is
rejected and the store is unchanged. -/
theorem c5_zero_total_rejected_failfast_witness :
    (createOrder [] zeroAmountReq 99).1 = ([] : List Order)
      ∧ ∃ m, (createOrder [] zeroAmountReq 99).2 = .badRequest m :=
  (c5_zero_total_rejected_failfast [] zeroAmountReq 99).1 (by decide)

/-! ## C3 -/

/-- C3 counterexample: the status-update handler accepts
`Delivered → Pending` — the reply is success and the stored order is
changed — contradicting the claim that the target is validated against
the allowed-next-state set of the current status. -/
theorem c3_delivered_to_pending_accepted :
    (updateOrderStatus [orderDelivered] 0 "Pending").2
        = .ok { orderDelivered with status := "Pending" }
      ∧ (updateOrderStatus [orderDelivered] 0 "Pending").1
        = [{ orderDelivered with status := "Pending" }] := by
  decide

/-- C3 as amended: the target status is validated only for membership in
the schema enum (Pending, Dispatched, Delivered, Cancelled); a
non-member target is rejected and leaves the store unchanged, while any
member target is applied to the found order regardless of its current
status. -/
theorem c3_status_enum_membership_only (db : List Order) (id : Nat)
    (s : String) :
    (validStatuses.contains s = false →
        updateOrderStatus db id s = (db, .badRequest))
      ∧ (validStatuses.contains s = true →
          ∀ o, db.find? (fun x => x.id == id) = some o →
            updateOrderStatus db id s
              = (db.map (fun x => if x.id == id then { o with status := s } else x),
                 .ok { o with status := s })) := by
  constructor
  · intro h
    unfold updateOrderStatus
    rw [h]
    rfl
  · intro h o ho
    unfold updateOrderStatus
    rw [h, ho]
    rfl

/-- Witness for the amended C3: a target outside the enum is rejected. -/
theorem c3_status_enum_membership_only_witness :
    updateOrderStatus [orderDelivered] 0 "Shipped"
      = ([orderDelivered], .badRequest) :=
  (c3_status_enum_membership_only [orderDelivered] 0 "Shipped").1 (by decide)

/-! ## C2 -/

/-- C2 (code bug): under the interleaving in which both pre-save hooks
read `countDocuments()` before either insert (and both observe the same
`Date.now()` millisecond), the two orders are assigned the SAME
generated order number — the naive count-then-format scheme is not
collision-free under concurrent creation. -/
theorem c2_race_duplicate_order_numbers :
    ((runRace validOrderReq validOrderReq 5
        [.readA, .readB, .writeA, .writeB] { db := [] }).db.map
          (fun o => o.orderNumber))
        = ["ORD-5-0001", "ORD-5-0001"]
      ∧ ¬ List.Pairwise (fun a b => a ≠ b)
          ((runRace validOrderReq validOrderReq 5
            [.readA, .readB, .writeA, .writeB] { db := [] }).db.map
              (fun o => o.orderNumber)) := by
  decide

/-! ## C6 -/

theorem uploadLoop_eq_filterMap (l : List (Option String)) :
    uploadLoop l = l.filterMap id := by
  induction l with
  | nil => rfl
  | cons h t ih => cases h <;> simp [uploadLoop, ih]

theorem promiseAll_eq_none_of_mem (l : List (Option String))
    (h : none ∈ l) : promiseAll l = none := by
  induction l with
  | nil => cases h
  | cons hd t ih =>
      cases hd with
      | none => rfl
      | some u =>
          have ht : none ∈ t := by simpa using h
          simp [promiseAll, ih ht]

/-- C6 counterexample: in the hosted-mode create handler a single failed
upload (3 files, 2nd fails) rejects the whole `Promise.all`, the request
answers a server error and no product is created — contradicting the
claim that every product creation with partly-failing uploads still
succeeds with the successful URLs. -/
theorem c6_hosted_promise_all_failure_fatal :
    createProductHosted [] prodBase [some "u0", none, some "u2"]
      = ([], .serverError) := by
  decide

/-- C6 as amended: the Cloudinary create handler skips failed uploads —
the created product's `images` are exactly the successful URLs in input
order and the request succeeds — while the hosted-mode
`routes/products.js` handler fails the whole request as soon as any
upload fails, persisting nothing. -/
theorem c6_cloud_skips_failed_uploads (db : List Product) (base : Product)
    (uploads : List (Option String)) :
    (createProductCloud db base uploads).2
        = .created { base with images := uploads.filterMap id, is_active := true }
      ∧ (createProductCloud db base uploads).1
          = db ++ [{ base with images := uploads.filterMap id, is_active := true }]
      ∧ (none ∈ uploads →
          createProductHosted db base uploads = (db, .serverError)) := by
  refine ⟨?_, ?_, fun h => ?_⟩
  · simp [createProductCloud, uploadLoop_eq_filterMap]
  · simp [createProductCloud, uploadLoop_eq_filterMap]
  · simp [createProductHosted, promiseAll_eq_none_of_mem _ h]

/-- Witness for the amended C6 on 3 files with the 2nd failing: the
Cloudinary route keeps entries 0 and 2, the hosted route fails. -/
theorem c6_cloud_skips_failed_uploads_witness :
    (createProductCloud [] prodBase [some "x0", none, some "x2"]).2
        = .created { prodBase with images := ["x0", "x2"], is_active := true }
      ∧ createProductHosted [] prodBase [some "x0", none, some "x2"]
          = ([], .serverError) := by
  have h := c6_cloud_skips_failed_uploads [] prodBase [some "x0", none, some "x2"]
  exact ⟨h.1, h.2.2 (by decide)⟩

/-! ## C9 -/

/-- C9 counterexample: when a JSON-string subfield fails to parse, the
field is NOT left absent from the write — the `catch` only logs and the
field keeps its raw unparsed string. -/
theorem c9_failed_parse_keeps_raw_string :
    jsonWf "not json" = false
      ∧ (parseJsonFields { dimensions := some "not json" }).dimensions
          = .raw "not json"
      ∧ (parseJsonFields { dimensions := some "not json" }).dimensions
          ≠ .absent := by
  decide

/-- C9 as amended: the `forEach` pass handles each of the six fields
independently (the submission is never aborted by it); a present
well-formed field is replaced by its parse, and a present field that
fails to parse keeps its raw string value in the write payload rather
than being removed. -/
theorem c9_parse_or_keep_per_field (pd : MultipartData) :
    parseJsonFields pd
        = { categories := processField pd.categories
            tags := processField pd.tags
            dimensions := processField pd.dimensions
            attributes := processField pd.attributes
            meta_keywords := processField pd.meta_keywords
            videos := processField pd.videos }
      ∧ (∀ s, s ≠ "" → jsonWf s = false → processField (some s) = .raw s)
      ∧ (∀ s, s ≠ "" → jsonWf s = true → processField (some s) = .parsedJson s) := by
  refine ⟨rfl, fun s hs hw => ?_, fun s hs hw => ?_⟩
  · simp [processField, hs, hw]
  · simp [processField, hs, hw]

/-- Witness for the amended C9 at the unparsable field value. -/
theorem c9_parse_or_keep_per_field_witness :
    processField (some "not json") = .raw "not json" :=
  (c9_parse_or_keep_per_field {}).2.1 "not json" (by decide) (by decide)

end Ecom
